import Mathlib

/-!
Shallow embedding of `src/lib/ChaincodeBase.js` from
`hyperledger-fabric-node-chaincode-utils`.

The file models, faithfully to the JavaScript source:
- the dynamic value universe touched by the code (`JsVal`), JS truthiness
  and presence, and `Buffer.from` on strings (UTF-8 bytes);
- the error taxonomy (`ChaincodeError` with its serialized wire form; the
  class itself lives in `lib/ChaincodeError.js`, which is not part of the
  provided sources, so the parts coming from it are modelled from the spec
  and marked as such);
- `parseParameters`, `prepareResponsePayload`, `setupInvoke`,
  `getTransactionHelperFor`, `Invoke`, and `runMigrations`.

Two scoping facts about the JavaScript source are load-bearing and are
modelled explicitly where they occur:
- line 120 reads `setup = this.setupInvoke(stub, ret.params)`; `setup` is
  declared nowhere, and all code of a class body is strict-mode code
  (ECMA-262, ClassDefinitionEvaluation), so after the right-hand side is
  evaluated the assignment itself throws
  `ReferenceError: setup is not defined`;
- line 147, inside the outer `catch` block, interpolates `ret.fcn`, but
  `ret` is `const`-declared inside the `try` block (line 103) and is not in
  scope in the `catch` block, so evaluating the template literal throws
  `ReferenceError: ret is not defined` before line 149 can run.

Exceptions are modelled with `Except`; an `async` method that rejects is an
`Except.error`. Instance state (`this.migrating`) is passed explicitly as a
`HandlerState`. JS numbers are modelled as integers (no claim touches
non-integer numerics).
-/

/-- Dynamic JavaScript values, restricted to the shapes the code touches.
`buffer` stands for a Node `Buffer` holding the listed bytes. -/
inductive JsVal where
  | buffer (bs : List Nat)
  | str (s : String)
  | num (n : Int)
  | bool (b : Bool)
  | null
  | undefined
  | arr (xs : List JsVal)
  | obj (fields : List (String × JsVal))

/-- JavaScript truthiness of a value, as used by `payload ? _ : _` on
line 83 and the `if (!method)` test on line 109. Buffers, arrays and
objects are objects and hence always truthy; `NaN` is outside the integer
number model. -/
def truthy : JsVal → Bool
  | JsVal.buffer _ => true
  | JsVal.str s => !(s == "")
  | JsVal.num n => !(n == 0)
  | JsVal.bool b => b
  | JsVal.null => false
  | JsVal.undefined => false
  | JsVal.arr _ => true
  | JsVal.obj _ => true

/-- Presence in the sense of the spec: a value that is not `null` and not
absent (`undefined`). -/
def isPresent : JsVal → Bool
  | JsVal.null => false
  | JsVal.undefined => false
  | _ => true

/-- Test used on line 82, `Buffer.isBuffer(payload)`. -/
def isBuffer : JsVal → Bool
  | JsVal.buffer _ => true
  | _ => false

/-- Byte content of a buffer value (and `[]` on non-buffers, a case the
code never reaches because it is guarded by `isBuffer`). -/
def bufferBytes : JsVal → List Nat
  | JsVal.buffer bs => bs
  | _ => []

/-- UTF-8 encoding of one Unicode code point, as a list of byte values. -/
def utf8Bytes (c : Nat) : List Nat :=
  if c < 128 then [c]
  else if c < 2048 then [192 + c / 64, 128 + c % 64]
  else if c < 65536 then [224 + c / 4096, 128 + (c / 64) % 64, 128 + c % 64]
  else [240 + c / 262144, 128 + (c / 4096) % 64, 128 + (c / 64) % 64, 128 + c % 64]

/-- Model of `Buffer.from(s)` for a string `s`: its UTF-8 bytes
(line 83). -/
def bufferFrom (s : String) : List Nat :=
  s.data.foldr (fun ch acc => utf8Bytes ch.toNat ++ acc) []

/-- Error kinds used by `ChaincodeBase.js` through the `ERRORS` constants
(`constants/errors.js`, not among the provided sources). Modelled from the
spec: the spec names exactly these four kinds. -/
inductive ErrorKind where
  | migrationPathNotDefined
  | unknownFunction
  | parsingParametersError
  | unknownError
deriving DecidableEq

/-- Structured diagnostic payload attached to a `ChaincodeError`. The
source attaches either nothing (line 33), `(fn: ...)` (lines 112-114), or
`(message: ...)` (lines 124-126 and 141-143). -/
inductive ErrData where
  | noData
  | fn (s : String)
  | message (s : String)
deriving DecidableEq

/-- Modelled from the spec: `ChaincodeError` (from `lib/ChaincodeError.js`,
not among the provided sources) carries an enumerated kind and structured
data; its message is a fixed template determined by the kind. -/
structure ChaincodeError where
  kind : ErrorKind
  data : ErrData
deriving DecidableEq

/-- Modelled from the spec: the fixed human-readable message template of
each error kind. No claim depends on the exact wording, only on the kind
and data being recoverable. -/
def messageTemplate : ErrorKind → String
  | ErrorKind.migrationPathNotDefined => "the migrations path is not defined"
  | ErrorKind.unknownFunction => "unknown function"
  | ErrorKind.parsingParametersError => "error while parsing the parameters"
  | ErrorKind.unknownError => "unknown error"

/-- Modelled from the spec: the serialized wire form of a `ChaincodeError`,
a single payload from which the caller can recover kind, message and data
(spec section on the error wire format). -/
structure SerializedError where
  kind : ErrorKind
  message : String
  data : ErrData
deriving DecidableEq

/-- Modelled from the spec: the `serialized` property of a
`ChaincodeError` combines kind, message template and data. -/
def ChaincodeError.serialized (e : ChaincodeError) : SerializedError :=
  SerializedError.mk e.kind (messageTemplate e.kind) e.data

/-- An exception value as it crosses a JS `catch`: either a
`ChaincodeError` or any other (plain) error identified by its message
(covers `ReferenceError` and handler-thrown plain errors). -/
inductive JsErr where
  | chaincode (e : ChaincodeError)
  | plain (message : String)
deriving DecidableEq

/-- The `err.message` read on lines 125 and 142. -/
def JsErr.message : JsErr → String
  | JsErr.chaincode e => messageTemplate e.kind
  | JsErr.plain m => m

/-- The execution-environment handle (`stub`): the dispatcher consumes only
`getFunctionAndParameters()` (function name and raw string arguments) and
`getTxID()`. -/
structure Stub where
  fcn : String
  params : List String
  txId : String
deriving DecidableEq

/-- Modelled from the spec: the default `TransactionHelper`
(`lib/TransactionHelper.js`, not among the provided sources) wraps the
stub with no extra behavior; its construction takes the stub as sole input
and cannot fail. -/
structure TransactionHelper where
  stub : Stub
deriving DecidableEq

/-- Translation of `getTransactionHelperFor` (lines 40-43). -/
def getTransactionHelperFor (stub : Stub) : TransactionHelper :=
  TransactionHelper.mk stub

/-- Translation of `parseParameters` (lines 59-74). `decode` models
`JSON.parse`: `some v` when parsing succeeds with value `v`, `none` when
`JSON.parse` throws. The source pushes, for each parameter in order,
either the parsed value or (in the `catch`) the original raw string; the
`forEach`-with-push loop is a left fold. -/
def parseParameters (decode : String → Option JsVal) (params : List String) : List JsVal :=
  params.foldl
    (fun parsedParams param =>
      parsedParams ++ [match decode param with
        | some v => v
        | none => JsVal.str param])
    []

/-- Translation of `prepareResponsePayload` (lines 80-86). `norm` models
`normalizePayload` (`utils/normalizePayload.js`, not among the provided
sources; the spec calls it a domain-specific normalization step) and
`strf` models `JSON.stringify`. A non-buffer payload is serialized only
when truthy; otherwise `Buffer.from(so to speak, the empty string)` is
returned. -/
def prepareResponsePayload (norm : JsVal → JsVal) (strf : JsVal → String)
    (payload : JsVal) : List Nat :=
  if isBuffer payload = false then
    bufferFrom (if truthy payload then strf (norm payload) else "")
  else
    bufferBytes payload

/-- Result of the property access `this[ret.fcn]` on line 108 for the base
instance: a method of the class (or of `Object.prototype`), a data
property or non-throwing getter with its value, the `migrationsPath`
getter (which throws when read, lines 31-34), or no property at all
(`undefined`). -/
inductive LookupRes where
  | method (name : String)
  | field (v : JsVal)
  | getterThrows (e : ChaincodeError)
  | missing

/-- Property table of a plain `ChaincodeBase` instance: the constructor
fields (lines 14-18), the class getters and methods, and the inherited
`Object.prototype` members (which `this[fcn]` also reaches). `shim` and
`logger` hold external objects, modelled as empty objects because only
their truthiness matters to the dispatcher; `name` is the constructor
name getter (line 23-26). -/
def baseProps : List (String × LookupRes) :=
  [ ("shim", LookupRes.field (JsVal.obj [])),
    ("migrating", LookupRes.field (JsVal.bool false)),
    ("logger", LookupRes.field (JsVal.obj [])),
    ("name", LookupRes.field (JsVal.str "ChaincodeBase")),
    ("migrationsPath",
      LookupRes.getterThrows (ChaincodeError.mk ErrorKind.migrationPathNotDefined ErrData.noData)),
    ("getTransactionHelperFor", LookupRes.method "getTransactionHelperFor"),
    ("setupInvoke", LookupRes.method "setupInvoke"),
    ("parseParameters", LookupRes.method "parseParameters"),
    ("prepareResponsePayload", LookupRes.method "prepareResponsePayload"),
    ("Init", LookupRes.method "Init"),
    ("Invoke", LookupRes.method "Invoke"),
    ("runMigrations", LookupRes.method "runMigrations"),
    ("ping", LookupRes.method "ping"),
    ("constructor", LookupRes.method "constructor"),
    ("hasOwnProperty", LookupRes.method "hasOwnProperty"),
    ("isPrototypeOf", LookupRes.method "isPrototypeOf"),
    ("propertyIsEnumerable", LookupRes.method "propertyIsEnumerable"),
    ("toLocaleString", LookupRes.method "toLocaleString"),
    ("toString", LookupRes.method "toString"),
    ("valueOf", LookupRes.method "valueOf"),
    ("__defineGetter__", LookupRes.method "__defineGetter__"),
    ("__defineSetter__", LookupRes.method "__defineSetter__"),
    ("__lookupGetter__", LookupRes.method "__lookupGetter__"),
    ("__lookupSetter__", LookupRes.method "__lookupSetter__"),
    ("__proto__", LookupRes.field (JsVal.obj [])) ]

/-- The dynamic lookup `this[ret.fcn]` (line 108) against `baseProps`;
names with no property yield `undefined`. -/
def baseLookup (fcn : String) : LookupRes :=
  match baseProps.lookup fcn with
  | some r => r
  | none => LookupRes.missing

/-- All property names of the base instance, the set the dispatcher
effectively looks operation names up against. -/
def exposedOperationNames : List String :=
  baseProps.map Prod.fst

/-- Result record of `setupInvoke` (lines 48-53). -/
structure SetupResult where
  parsedParameters : List JsVal
  txHelper : TransactionHelper

/-- Translation of `setupInvoke` (lines 48-53). -/
def setupInvoke (decode : String → Option JsVal) (stub : Stub)
    (params : List String) : SetupResult :=
  SetupResult.mk (parseParameters decode params) (getTransactionHelperFor stub)

/-- Translation of line 120, `setup = this.setupInvoke(stub, ret.params)`.
No declaration of `setup` exists anywhere in the file, and class bodies
are strict-mode code, so the statement first evaluates its right-hand side
(`setupInvoke` runs to completion) and then, when the result is assigned
to the unresolvable reference `setup`, throws
`ReferenceError: setup is not defined`. -/
def setupAssignment (decode : String → Option JsVal) (stub : Stub)
    (params : List String) : Except JsErr SetupResult :=
  let _setup := setupInvoke decode stub params
  Except.error (JsErr.plain "setup is not defined")

/-- Outcome of one `Invoke` call: a `shim.success` response with its
payload bytes, a `shim.error` response with the serialized error, or a raw
(non-`ChaincodeError`) exception escaping `Invoke` (the returned promise
rejects). -/
inductive InvokeOutcome where
  | success (payload : List Nat)
  | errorResp (e : SerializedError)
  | raw (e : JsErr)
deriving DecidableEq

/-- Translation of the outer catch block (lines 135-150). It computes the
wrapped error exactly as the source does (lines 136-144), but the failure
log line 147 interpolates `ret.fcn`, and `ret` is `const`-scoped to the
`try` block (line 103), not visible in the catch block; evaluating the
template literal therefore throws `ReferenceError: ret is not defined`,
so the `shim.error(error.serialized)` on line 149 is never reached and
the raw `ReferenceError` escapes `Invoke`. -/
def outerCatch (err : JsErr) : InvokeOutcome :=
  let _error : JsErr :=
    match err with
    | JsErr.chaincode e => JsErr.chaincode e
    | JsErr.plain m =>
        JsErr.chaincode (ChaincodeError.mk ErrorKind.unknownError (ErrData.message m))
  InvokeOutcome.raw (JsErr.plain "ret is not defined")

/-- Observable steps of one `Invoke` call, used to state in which order
(and whether) the dispatcher resolves the name, coerces parameters,
builds the transaction helper, calls the handler, and encodes the
response. -/
inductive Ev where
  | lookup (fcn : String)
  | parseParams
  | buildHelper
  | callHandler
  | prepareResponse
deriving DecidableEq

/-- Translation of the resolved branch of `Invoke` (lines 117-134), after
the `if (!method)` guard has passed. `runHandler` models `method.call`
(line 129): the awaited handler body, which may reject. The branch first
runs `setupAssignment` (whose right-hand side performs parameter parsing
and helper construction, hence the two events); its `ReferenceError` is
re-thrown by the inner catch (lines 123-127) as a `ChaincodeError` of kind
`parsingParametersError` carrying the original message, which the outer
catch then receives. The success continuation (lines 129-134) is
translated as well although `setupAssignment` never returns normally. -/
def invokeResolved (decode : String → Option JsVal) (norm : JsVal → JsVal)
    (strf : JsVal → String)
    (runHandler : String → Stub → TransactionHelper → List JsVal → Except JsErr JsVal)
    (stub : Stub) : InvokeOutcome × List Ev :=
  match setupAssignment decode stub stub.params with
  | Except.error err =>
      (outerCatch (JsErr.chaincode
          (ChaincodeError.mk ErrorKind.parsingParametersError
            (ErrData.message (JsErr.message err)))),
       [Ev.lookup stub.fcn, Ev.parseParams, Ev.buildHelper])
  | Except.ok setup =>
      match runHandler stub.fcn stub setup.txHelper setup.parsedParameters with
      | Except.error e =>
          (outerCatch e,
           [Ev.lookup stub.fcn, Ev.parseParams, Ev.buildHelper, Ev.callHandler])
      | Except.ok payload =>
          (InvokeOutcome.success (prepareResponsePayload norm strf payload),
           [Ev.lookup stub.fcn, Ev.parseParams, Ev.buildHelper, Ev.callHandler,
            Ev.prepareResponse])

/-- Translation of `Invoke` (lines 100-151) for a base instance. The
property access on line 108 may itself throw (the `migrationsPath`
getter), landing in the outer catch; a falsy lookup result (a missing
property, or a falsy data property such as `migrating`) takes the
`UNKNOWN_FUNCTION` early return of lines 109-115; a truthy result
proceeds to the resolved branch. -/
def Invoke (decode : String → Option JsVal) (norm : JsVal → JsVal)
    (strf : JsVal → String)
    (runHandler : String → Stub → TransactionHelper → List JsVal → Except JsErr JsVal)
    (stub : Stub) : InvokeOutcome × List Ev :=
  match baseLookup stub.fcn with
  | LookupRes.getterThrows e =>
      (outerCatch (JsErr.chaincode e), [Ev.lookup stub.fcn])
  | LookupRes.method _ =>
      invokeResolved decode norm strf runHandler stub
  | LookupRes.field v =>
      if truthy v then
        invokeResolved decode norm strf runHandler stub
      else
        (InvokeOutcome.errorResp
          (ChaincodeError.serialized
            (ChaincodeError.mk ErrorKind.unknownFunction (ErrData.fn stub.fcn))),
         [Ev.lookup stub.fcn])
  | LookupRes.missing =>
      (InvokeOutcome.errorResp
        (ChaincodeError.serialized
          (ChaincodeError.mk ErrorKind.unknownFunction (ErrData.fn stub.fcn))),
       [Ev.lookup stub.fcn])

/-- Instance state of the handler that `runMigrations` mutates: the
`migrating` flag set in the constructor (line 16). -/
structure HandlerState where
  migrating : Bool
deriving DecidableEq

/-- Translation of the `migrationsPath` getter of the base class
(lines 31-34): reading it always throws `MIGRATION_PATH_NOT_DEFINED`.
Subclasses may override it; an overriding getter is any other value of
the same `Except` type. -/
def migrationsPath : Except ChaincodeError String :=
  Except.error (ChaincodeError.mk ErrorKind.migrationPathNotDefined ErrData.noData)

/-- Translation of `runMigrations` (lines 160-166). `getPath` is the
`this.migrationsPath` getter of the concrete instance; `executor` models
`migrations.runMigrations` (`utils/migrations.js`, not among the provided
sources; per the spec it runs the pending migration units at the given
path and may reject). Line 161 sets the flag before anything else; the
argument list of line 162 is evaluated left to right, so the getter runs
next and its exception propagates with the flag still set; if the awaited
executor rejects, line 163 never runs either. Only on normal return of
the executor is the flag cleared. -/
def runMigrations (getPath : Except ChaincodeError String)
    (executor : String → Stub → TransactionHelper → List JsVal → Except JsErr JsVal)
    (stub : Stub) (txHelper : TransactionHelper) (args : List JsVal)
    (s : HandlerState) : Except JsErr JsVal × HandlerState :=
  let s1 : HandlerState := { s with migrating := true }
  match getPath with
  | Except.error e => (Except.error (JsErr.chaincode e), s1)
  | Except.ok path =>
      match executor path stub txHelper args with
      | Except.error e => (Except.error e, s1)
      | Except.ok result => (Except.ok result, HandlerState.mk false)

/-- True exactly when an `Except` computation returned normally. -/
def exceptOk {ε α : Type} : Except ε α → Bool
  | Except.ok _ => true
  | Except.error _ => false

/-- Concrete instantiation of the abstract `JSON.parse` model used in
closed evaluations; the general theorems quantify over every decoder. -/
def decode0 : String → Option JsVal :=
  fun _ => none

/-- Concrete instantiation of the abstract `normalizePayload` model used
in closed evaluations: the identity normalization. -/
def norm0 : JsVal → JsVal :=
  fun v => v

/-- Concrete instantiation of the abstract `JSON.stringify` model used in
closed evaluations. Only its values on atomic payloads are relied upon by
any theorem; composite values are abbreviated. -/
def stringify0 : JsVal → String
  | JsVal.num n => toString n
  | JsVal.str s => String.append (String.append "\x22" s) "\x22"
  | JsVal.bool b => cond b "true" "false"
  | JsVal.null => "null"
  | JsVal.undefined => "undefined"
  | JsVal.buffer _ => ""
  | JsVal.arr _ => "[]"
  | JsVal.obj _ => "\x7b\x7d"

/-- Concrete instantiation of the abstract handler-call model used in
closed evaluations: `ping` (lines 171-174) resolves to the string
`pong`; any other handler body rejects with a plain error. -/
def runHandler0 : String → Stub → TransactionHelper → List JsVal → Except JsErr JsVal :=
  fun fcn _ _ _ =>
    if fcn == "ping" then Except.ok (JsVal.str "pong")
    else Except.error (JsErr.plain "boom")

/-- Stub of the liveness-probe invocation: operation name `ping`, no
arguments. -/
def pingStub : Stub :=
  Stub.mk "ping" [] "tx1"

/-- A left fold that appends one image per element is the map of the
elements appended to the accumulator. -/
theorem foldl_push_eq_map {α β : Type} (g : α → β) (params : List α) :
    ∀ acc : List β,
      params.foldl (fun a p => a ++ [g p]) acc = acc ++ params.map g := by
  induction params with
  | nil => intro acc; simp
  | cons p t ih => intro acc; simp [ih]

/-- Association-list lookup misses every key that is not among the keys. -/
theorem lookup_eq_none_of_not_mem (k : String) (l : List (String × LookupRes))
    (h : k ∉ l.map Prod.fst) : l.lookup k = none := by
  induction l with
  | nil => rfl
  | cons a t ih =>
      have h1 : ¬(k = a.1) := by
        intro hk; exact h (by simp [hk])
      have h2 : k ∉ t.map Prod.fst := by
        intro hk; exact h (by simp [hk])
      have hb : (k == a.1) = false := beq_eq_false_iff_ne.mpr h1
      simp [List.lookup, hb, ih h2]

/-- C7: for every decoder and every sequence of raw string arguments,
`parseParameters` returns a sequence of the same length, in the same
order, in which each element is independently the structured decode of
the corresponding raw string when decoding succeeds and the original raw
string unchanged when it fails. The function is total, modelling that the
per-element `catch` makes it unable to raise. -/
theorem parseParameters_elementwise (decode : String → Option JsVal)
    (params : List String) :
    (parseParameters decode params).length = params.length ∧
    parseParameters decode params = params.map (fun param =>
      match decode param with
      | some v => v
      | none => JsVal.str param) := by
  have h : parseParameters decode params = params.map (fun param =>
      match decode param with
      | some v => v
      | none => JsVal.str param) := by
    have hf := foldl_push_eq_map
      (fun param => match decode param with
        | some v => v
        | none => JsVal.str param) params ([] : List JsVal)
    simpa [parseParameters] using hf
  exact ⟨by rw [h]; simp, h⟩

/-- C6: for every operation name that is absent from the property set the
dispatcher resolves against, `Invoke` returns the serialized
`UNKNOWN_FUNCTION` failure whose data records the requested name, having
performed nothing but the lookup. -/
theorem Invoke_unknown_function (decode : String → Option JsVal)
    (norm : JsVal → JsVal) (strf : JsVal → String)
    (runHandler : String → Stub → TransactionHelper → List JsVal → Except JsErr JsVal)
    (stub : Stub) (h : stub.fcn ∉ exposedOperationNames) :
    Invoke decode norm strf runHandler stub =
      (InvokeOutcome.errorResp (ChaincodeError.serialized
        (ChaincodeError.mk ErrorKind.unknownFunction (ErrData.fn stub.fcn))),
       [Ev.lookup stub.fcn]) := by
  have hl : baseProps.lookup stub.fcn = none :=
    lookup_eq_none_of_not_mem _ _ (by simpa [exposedOperationNames] using h)
  simp [Invoke, baseLookup, hl]

/-- Witness for C6 at the concrete unknown name `doesNotExist`. -/
theorem Invoke_unknown_function_witness :
    "doesNotExist" ∉ exposedOperationNames ∧
    Invoke decode0 norm0 stringify0 runHandler0 (Stub.mk "doesNotExist" [] "tx1") =
      (InvokeOutcome.errorResp (ChaincodeError.serialized
        (ChaincodeError.mk ErrorKind.unknownFunction (ErrData.fn "doesNotExist"))),
       [Ev.lookup "doesNotExist"]) :=
  ⟨by decide,
   Invoke_unknown_function decode0 norm0 stringify0 runHandler0
     (Stub.mk "doesNotExist" [] "tx1") (by decide)⟩

/-- C9: for every invocation whose operation name is absent from the
property set, `Invoke` performs only the lookup: no parameter coercion,
no transaction-helper construction and no handler call happen on the
unknown-function path. -/
theorem Invoke_unknown_no_partial_execution (decode : String → Option JsVal)
    (norm : JsVal → JsVal) (strf : JsVal → String)
    (runHandler : String → Stub → TransactionHelper → List JsVal → Except JsErr JsVal)
    (stub : Stub) (h : stub.fcn ∉ exposedOperationNames) :
    (Invoke decode norm strf runHandler stub).2 = [Ev.lookup stub.fcn] ∧
    Ev.parseParams ∉ (Invoke decode norm strf runHandler stub).2 ∧
    Ev.buildHelper ∉ (Invoke decode norm strf runHandler stub).2 ∧
    Ev.callHandler ∉ (Invoke decode norm strf runHandler stub).2 := by
  have hl : baseProps.lookup stub.fcn = none :=
    lookup_eq_none_of_not_mem _ _ (by simpa [exposedOperationNames] using h)
  simp [Invoke, baseLookup, hl]

/-- Witness for C9 at the concrete unknown name `nope`. -/
theorem Invoke_unknown_no_partial_execution_witness :
    ("nope" : String) ∉ exposedOperationNames ∧
    (Invoke decode0 norm0 stringify0 runHandler0 (Stub.mk "nope" [] "tx2")).2 =
      [Ev.lookup "nope"] ∧
    Ev.parseParams ∉ (Invoke decode0 norm0 stringify0 runHandler0 (Stub.mk "nope" [] "tx2")).2 ∧
    Ev.buildHelper ∉ (Invoke decode0 norm0 stringify0 runHandler0 (Stub.mk "nope" [] "tx2")).2 ∧
    Ev.callHandler ∉ (Invoke decode0 norm0 stringify0 runHandler0 (Stub.mk "nope" [] "tx2")).2 :=
  ⟨by decide,
   Invoke_unknown_no_partial_execution decode0 norm0 stringify0 runHandler0
     (Stub.mk "nope" [] "tx2") (by decide)⟩

/-- C5 counterexample: the reserved lifecycle names are resolvable as
ordinary operations. The dynamic lookup of line 108 finds the `Init` and
`Invoke` methods themselves, they pass the `if (!method)` guard, and an
invocation naming them does not take the unknown-function failure path;
no guard excludes them. -/
theorem reserved_names_resolvable_cex :
    baseLookup "Init" = LookupRes.method "Init" ∧
    baseLookup "Invoke" = LookupRes.method "Invoke" ∧
    (Invoke decode0 norm0 stringify0 runHandler0 (Stub.mk "Init" [] "tx1")).1 ≠
      InvokeOutcome.errorResp (ChaincodeError.serialized
        (ChaincodeError.mk ErrorKind.unknownFunction (ErrData.fn "Init"))) ∧
    (Invoke decode0 norm0 stringify0 runHandler0 (Stub.mk "Invoke" [] "tx1")).1 ≠
      InvokeOutcome.errorResp (ChaincodeError.serialized
        (ChaincodeError.mk ErrorKind.unknownFunction (ErrData.fn "Invoke"))) := by
  exact ⟨rfl, rfl, by decide, by decide⟩

/-- C5 amended: `Init` and `Invoke` resolve like any other property of the
instance and enter the dispatch path, so they are resolvable as ordinary
operations; in the code as written neither (nor any other operation) is
ever executed as a handler operation, because the `setup` assignment of
line 120 throws before the handler call for every resolved name. -/
theorem reserved_names_resolve_without_handler_call
    (decode : String → Option JsVal) (norm : JsVal → JsVal)
    (strf : JsVal → String)
    (runHandler : String → Stub → TransactionHelper → List JsVal → Except JsErr JsVal)
    (params : List String) (txId : String) :
    baseLookup "Init" = LookupRes.method "Init" ∧
    baseLookup "Invoke" = LookupRes.method "Invoke" ∧
    Ev.callHandler ∉ (Invoke decode norm strf runHandler (Stub.mk "Init" params txId)).2 ∧
    Ev.callHandler ∉ (Invoke decode norm strf runHandler (Stub.mk "Invoke" params txId)).2 := by
  have h1 : (Invoke decode norm strf runHandler (Stub.mk "Init" params txId)).2 =
      [Ev.lookup "Init", Ev.parseParams, Ev.buildHelper] := rfl
  have h2 : (Invoke decode norm strf runHandler (Stub.mk "Invoke" params txId)).2 =
      [Ev.lookup "Invoke", Ev.parseParams, Ev.buildHelper] := rfl
  refine ⟨rfl, rfl, ?_, ?_⟩
  · rw [h1]; decide
  · rw [h2]; decide

/-- C3: the invocation of the resolvable operation `ping` makes a raw,
untyped `ReferenceError` escape `Invoke`. The outer catch wraps errors as
the source prescribes, but its own failure-log line reads the
out-of-scope `ret`, so the serialized `ChaincodeError` of line 149 is
never returned and the raw error propagates out of `Invoke`. -/
theorem Invoke_raw_error_escapes :
    (Invoke decode0 norm0 stringify0 runHandler0 pingStub).1 =
      InvokeOutcome.raw (JsErr.plain "ret is not defined") := by
  rfl

/-- C4: the `ping` invocation routed through `Invoke` does not return the
success result `pong`; the dispatch dies on the strict-mode `setup`
assignment and the invocation ends in a raw `ReferenceError`, after only
the lookup, the parameter parse and the helper construction have run. -/
theorem Invoke_ping_no_pong :
    Invoke decode0 norm0 stringify0 runHandler0 pingStub =
      (InvokeOutcome.raw (JsErr.plain "ret is not defined"),
       [Ev.lookup "ping", Ev.parseParams, Ev.buildHelper]) := by
  rfl

/-- C1 counterexample: a `runMigrations` call whose executor raises leaves
the `migrating` flag true after the call re-raises: line 163 is not
protected by any `finally`, so the failing path never clears the flag. -/
theorem runMigrations_flag_after_failure_cex :
    runMigrations (Except.ok "migrations")
        (fun _ _ _ _ => Except.error (JsErr.plain "boom"))
        (Stub.mk "runMigrations" [] "tx1")
        (TransactionHelper.mk (Stub.mk "runMigrations" [] "tx1")) []
        (HandlerState.mk false) =
      (Except.error (JsErr.plain "boom"), HandlerState.mk true) := by
  rfl

/-- C1 amended: the flag is set on entry and cleared only on the success
path; after `runMigrations` returns the flag is false exactly when the
call returned normally, and remains true whenever the path getter or the
executor raised. -/
theorem runMigrations_flag_tracks_result (getPath : Except ChaincodeError String)
    (executor : String → Stub → TransactionHelper → List JsVal → Except JsErr JsVal)
    (stub : Stub) (txHelper : TransactionHelper) (args : List JsVal)
    (s : HandlerState) :
    ((runMigrations getPath executor stub txHelper args s).2).migrating =
      !(exceptOk (runMigrations getPath executor stub txHelper args s).1) := by
  cases hp : getPath with
  | error e => simp [runMigrations, hp, exceptOk]
  | ok path =>
      cases hx : executor path stub txHelper args with
      | error e => simp [runMigrations, hp, hx, exceptOk]
      | ok r => simp [runMigrations, hp, hx, exceptOk]

/-- C2 counterexample: on a handler with no migrations path the call does
fail with `MIGRATION_PATH_NOT_DEFINED`, but the `migrating` flag is set
on line 161 before the getter of line 162 throws, and is still true
immediately after the failing call (it was false immediately before, as
the explicit initial state shows). -/
theorem runMigrations_no_path_flag_cex :
    (runMigrations migrationsPath (fun _ _ _ _ => Except.ok JsVal.null)
        (Stub.mk "runMigrations" [] "tx1")
        (TransactionHelper.mk (Stub.mk "runMigrations" [] "tx1")) []
        (HandlerState.mk false)).1 =
      Except.error (JsErr.chaincode
        (ChaincodeError.mk ErrorKind.migrationPathNotDefined ErrData.noData)) ∧
    (runMigrations migrationsPath (fun _ _ _ _ => Except.ok JsVal.null)
        (Stub.mk "runMigrations" [] "tx1")
        (TransactionHelper.mk (Stub.mk "runMigrations" [] "tx1")) []
        (HandlerState.mk false)).2.migrating = true := by
  exact ⟨rfl, rfl⟩

/-- C2 amended: with the base (absent) migrations path, `runMigrations`
fails with kind `MIGRATION_PATH_NOT_DEFINED` for every executor and every
prior state, and no executor work is started (the result is the same
whatever the executor is) — but the `migrating` flag is set to true
before the getter throws and is true after the call. -/
theorem runMigrations_no_path (executor : String → Stub → TransactionHelper → List JsVal → Except JsErr JsVal)
    (stub : Stub) (txHelper : TransactionHelper) (args : List JsVal)
    (s : HandlerState) :
    runMigrations migrationsPath executor stub txHelper args s =
      (Except.error (JsErr.chaincode
        (ChaincodeError.mk ErrorKind.migrationPathNotDefined ErrData.noData)),
       HandlerState.mk true) := by
  rfl

/-- C8 counterexample: the number `0` is present (neither null nor
absent) and is not a byte sequence, yet `prepareResponsePayload` returns
the empty byte sequence instead of the UTF-8 text of the serialization of
the normalized value: line 83 tests truthiness, not presence. -/
theorem prepareResponsePayload_present_zero_cex :
    isPresent (JsVal.num 0) = true ∧
    isBuffer (JsVal.num 0) = false ∧
    prepareResponsePayload norm0 stringify0 (JsVal.num 0) = bufferFrom "" ∧
    prepareResponsePayload norm0 stringify0 (JsVal.num 0) ≠
      bufferFrom (stringify0 (norm0 (JsVal.num 0))) := by
  refine ⟨rfl, rfl, rfl, ?_⟩
  decide

/-- C8 amended: `prepareResponsePayload` is the identity on byte
sequences; for every non-byte value that is truthy it returns the UTF-8
text of the serialization of the normalized value; and for every
non-byte value that is falsy (null or absent, but also the present falsy
values) it returns an empty byte sequence. -/
theorem prepareResponsePayload_characterization (norm : JsVal → JsVal)
    (strf : JsVal → String) :
    (∀ bs : List Nat, prepareResponsePayload norm strf (JsVal.buffer bs) = bs) ∧
    (∀ p : JsVal, isBuffer p = false → truthy p = true →
      prepareResponsePayload norm strf p = bufferFrom (strf (norm p))) ∧
    (∀ p : JsVal, isBuffer p = false → truthy p = false →
      prepareResponsePayload norm strf p = bufferFrom "") := by
  refine ⟨fun bs => rfl, fun p hb ht => ?_, fun p hb ht => ?_⟩ <;>
    simp [prepareResponsePayload, hb, ht]

/-- Witness for C8 amended: a buffer passes through unchanged, a truthy
string is serialized, and the present falsy number `0` yields the empty
byte sequence. -/
theorem prepareResponsePayload_characterization_witness :
    prepareResponsePayload norm0 stringify0 (JsVal.buffer [7, 8]) = [7, 8] ∧
    prepareResponsePayload norm0 stringify0 (JsVal.str "x") =
      bufferFrom (stringify0 (norm0 (JsVal.str "x"))) ∧
    prepareResponsePayload norm0 stringify0 (JsVal.num 0) = bufferFrom "" :=
  ⟨(prepareResponsePayload_characterization norm0 stringify0).1 [7, 8],
   (prepareResponsePayload_characterization norm0 stringify0).2.1
     (JsVal.str "x") rfl rfl,
   (prepareResponsePayload_characterization norm0 stringify0).2.2
     (JsVal.num 0) rfl rfl⟩

/-- C10: for every non-byte value that is falsy but present — such as the
number 0, the boolean false, or the empty string — `prepareResponsePayload`
returns an empty byte sequence rather than the serialization of the
normalized value. -/
theorem prepareResponsePayload_falsy_present_empty (norm : JsVal → JsVal)
    (strf : JsVal → String) (v : JsVal) (hb : isBuffer v = false)
    (hp : isPresent v = true) (ht : truthy v = false) :
    prepareResponsePayload norm strf v = bufferFrom "" := by
  have hpv : isPresent v = true := hp
  simp [prepareResponsePayload, hb, ht]

/-- Witness for C10 at the three present falsy values named by the
claim. -/
theorem prepareResponsePayload_falsy_present_empty_witness :
    prepareResponsePayload norm0 stringify0 (JsVal.num 0) = bufferFrom "" ∧
    prepareResponsePayload norm0 stringify0 (JsVal.bool false) = bufferFrom "" ∧
    prepareResponsePayload norm0 stringify0 (JsVal.str "") = bufferFrom "" :=
  ⟨prepareResponsePayload_falsy_present_empty norm0 stringify0 (JsVal.num 0) rfl rfl rfl,
   prepareResponsePayload_falsy_present_empty norm0 stringify0 (JsVal.bool false) rfl rfl rfl,
   prepareResponsePayload_falsy_present_empty norm0 stringify0 (JsVal.str "") rfl rfl rfl⟩
